import Mathlib

/-!
Shallow embedding of the delivery-order assignment engine
(backend/orders_service.py and the order routes of backend/app.py).

Modelling conventions:
* Machine integers and SQLite INTEGER ids are `Nat`/`Int`.
* A parsed timestamp is `DT`: calendar date (day ordinal, `Int`), wall-clock
  time of day in seconds (`Nat`), and the parsed UTC offset in seconds
  (`Option Int`, `none` for a naive timestamp without offset).  Python
  `datetime.fromisoformat` applied to an order field is modelled as
  `Option DT`: `none` when parsing raises (`ValueError`/`AttributeError`).
* SQLite compares stored ISO timestamp strings lexicographically; for
  uniformly formatted ISO strings this agrees with wall-clock order, which
  `DT.lt` implements (date, then time of day; the offset suffix is not
  compared, matching wall-clock prefix comparison of uniform strings).
* Python truthiness on ids (`if exclude_driver_id`, `if driver_id and
  vehicle_id`) is modelled explicitly with `≠ 0` guards.
* The SQLite store is a `Store` of lists; query result order is list order,
  modelling the stable enumeration order of the reference database.
* Row mutation (`UPDATE ... WHERE id = ?`) maps every row with the given id.
-/

namespace Dispatch

/-- Order status values allowed by the orders table CHECK constraint. -/
inductive Status where
  | pending
  | assigned
  | completed
  | cancelled
deriving DecidableEq, Repr

/-- A parsed timestamp: calendar date as a day ordinal, wall-clock time of
day in seconds, and the UTC offset in seconds when the source string carried
one (`none` models a naive datetime). -/
structure DT where
  date : Int
  tod : Nat
  offset : Option Int
deriving DecidableEq, Repr

/-- Wall-clock (equivalently, uniform ISO string) strict order on stored
timestamps, as used by the SQL comparisons on `pickup_time`/`dropoff_time`. -/
def DT.lt (a b : DT) : Prop :=
  a.date < b.date ∨ (a.date = b.date ∧ a.tod < b.tod)

instance (a b : DT) : Decidable (DT.lt a b) := by
  unfold DT.lt
  exact inferInstance

/-- Python datetime subtraction `dropoff - pickup` in seconds, valid when the
two datetimes have the same awareness (an aware instant is wall time minus
offset). -/
def diffSeconds (p d : DT) : Int :=
  ((d.date - p.date) * 86400 + (d.tod : Int) - (p.tod : Int))
    - (d.offset.getD 0 - p.offset.getD 0)

/-- Outcome of `validate_order_times`.  The four failure messages of the
source are the four error constructors; `typeError` models the uncaught
Python `TypeError` raised by subtracting a naive datetime from an aware one
(or vice versa), which escapes the handler that only catches
`ValueError`/`AttributeError`. -/
inductive ValidationOutcome where
  | invalidFormat
  | crossDayWindow
  | windowTooShort
  | windowTooLong
  | typeError
  | ok
deriving DecidableEq, Repr

/-- Embedding of `validate_order_times` (orders_service.py lines 4-27):
parse both strings (failure gives the invalid-format error), then reject
windows crossing a calendar day, then a window shorter than 15 minutes,
then a window longer than 4 hours.  The datetime subtraction performed for
the duration checks raises `TypeError` when exactly one operand is aware. -/
def validate_order_times (p d : Option DT) : ValidationOutcome :=
  match p, d with
  | some pt, some dt =>
    if pt.date ≠ dt.date then ValidationOutcome.crossDayWindow
    else if pt.offset.isSome ≠ dt.offset.isSome then ValidationOutcome.typeError
    else if diffSeconds pt dt < 900 then ValidationOutcome.windowTooShort
    else if diffSeconds pt dt > 14400 then ValidationOutcome.windowTooLong
    else ValidationOutcome.ok
  | _, _ => ValidationOutcome.invalidFormat

/-- A row of the vehicles table (`max_weight REAL` is modelled on `Int`,
only order comparisons on it are used). -/
structure Vehicle where
  id : Nat
  driver_id : Nat
  max_orders : Int
  max_weight : Int
deriving DecidableEq, Repr

/-- A row of the shifts table; `start_time`/`end_time` are seconds of day
(the source compares zero-padded HH:MM:SS strings, which orders the same
way). -/
structure Shift where
  driver_id : Nat
  shift_date : Int
  start_time : Nat
  end_time : Nat
deriving DecidableEq, Repr

/-- A row of the orders table. -/
structure Order where
  id : Nat
  merchant_id : Nat
  description : String
  status : Status
  pickup : DT
  dropoff : DT
  weight : Int
  driver_id : Option Nat
  vehicle_id : Option Nat
deriving DecidableEq, Repr

/-- The SQLite database: merchants and drivers are kept as id lists, the
remaining tables as row lists in stable enumeration order. -/
structure Store where
  merchants : List Nat
  drivers : List Nat
  vehicles : List Vehicle
  shifts : List Shift
  orders : List Order
deriving DecidableEq, Repr

/-- The overlap count of `find_available_driver` (orders_service.py lines
93-103): orders on the candidate vehicle with status assigned or completed,
pickup on the order date, whose window overlaps the candidate window under
`existing.pickup < candidate.dropoff AND existing.dropoff > candidate.pickup`. -/
def overlapCount (st : Store) (vid : Nat) (odate : Int) (p d : DT) : Nat :=
  (st.orders.filter fun o => decide (o.vehicle_id = some vid
    ∧ (o.status = Status.assigned ∨ o.status = Status.completed)
    ∧ o.pickup.date = odate
    ∧ DT.lt o.pickup d ∧ DT.lt p o.dropoff)).length

/-- The recheck overlap count of the edit path (app.py lines 472-481): same
query as `overlapCount` with the additional clause `id != ?` excluding the
order being edited. -/
def overlapCountExcl (st : Store) (vid : Nat) (odate : Int) (p d : DT)
    (oid : Nat) : Nat :=
  (st.orders.filter fun o => decide (o.vehicle_id = some vid
    ∧ (o.status = Status.assigned ∨ o.status = Status.completed)
    ∧ o.pickup.date = odate
    ∧ o.id ≠ oid
    ∧ DT.lt o.pickup d ∧ DT.lt p o.dropoff)).length

/-- Candidate rows of the shift query of `find_available_driver`
(orders_service.py lines 62-72): shifts on the order date covering the
time-of-day window, joined to the drivers table and to the vehicles of the
shift driver, in stable enumeration order. -/
def candidateRows (st : Store) (odate : Int) (ptod dtod : Nat) :
    List (Nat × Vehicle) :=
  (st.shifts.filter fun s =>
      decide (s.shift_date = odate ∧ s.start_time ≤ ptod ∧ dtod ≤ s.end_time)).flatMap
    fun s =>
      if s.driver_id ∈ st.drivers then
        (st.vehicles.filter fun v => v.driver_id == s.driver_id).map
          fun v => (s.driver_id, v)
      else []

/-- The Python guard `exclude_driver_id and driver_id == exclude_driver_id`
(orders_service.py line 81); `None` and `0` are falsy, so no driver is
skipped in those cases. -/
def excludeMatches : Option Nat → Nat → Bool
  | none, _ => false
  | some e, dr => decide (e ≠ 0) && (dr == e)

/-- The first-fit loop of `find_available_driver` (orders_service.py lines
74-112): skip the excluded driver, skip overweight orders, skip vehicles at
overlap capacity, return the first surviving driver and vehicle. -/
def findFromCandidates (st : Store) (odate : Int) (p d : DT) (w : Int)
    (ex : Option Nat) : List (Nat × Vehicle) → Option (Nat × Nat)
  | [] => none
  | row :: rest =>
    if excludeMatches ex row.1 then findFromCandidates st odate p d w ex rest
    else if row.2.max_weight < w then findFromCandidates st odate p d w ex rest
    else if (row.2.max_orders : Int) ≤ (overlapCount st row.2.id odate p d : Int) then
      findFromCandidates st odate p d w ex rest
    else some (row.1, row.2.id)

/-- Embedding of `find_available_driver` (orders_service.py lines 30-112):
parse both times, returning no match when parsing fails, then run the
first-fit loop over the covering shifts of the pickup date. -/
def find_available_driver (st : Store) (p d : Option DT) (w : Int)
    (ex : Option Nat) : Option (Nat × Nat) :=
  match p, d with
  | some pt, some dt =>
    findFromCandidates st pt.date pt dt w ex (candidateRows st pt.date pt.tod dt.tod)
  | _, _ => none

/-- An `UPDATE orders ... WHERE id = ?` statement: rewrite every row whose
id matches. -/
def setOrder (st : Store) (oid : Nat) (f : Order → Order) : Store :=
  { st with orders := st.orders.map fun o => if o.id = oid then f o else o }

/-- The coordinator write shared by `assign_driver_to_order` and the edit
path (app.py lines 493-506): on a match with truthy ids, write driver,
vehicle and status assigned; otherwise clear both and set status pending. -/
def applyAssignment (st : Store) (oid : Nat) (r : Option (Nat × Nat)) : Store :=
  match r with
  | some (did, vid) =>
    if did ≠ 0 ∧ vid ≠ 0 then
      setOrder st oid fun o =>
        { o with driver_id := some did, vehicle_id := some vid,
                 status := Status.assigned }
    else
      setOrder st oid fun o =>
        { o with driver_id := none, vehicle_id := none, status := Status.pending }
  | none =>
    setOrder st oid fun o =>
      { o with driver_id := none, vehicle_id := none, status := Status.pending }

/-- Embedding of `assign_driver_to_order` (orders_service.py lines 115-136):
run the matcher, apply the coordinator write, and return the pair the Python
function returns (`(None, None)` unless both ids are truthy). -/
def assign_driver_to_order (st : Store) (oid : Nat) (p d : Option DT)
    (w : Int) (ex : Option Nat) : Store × Option (Nat × Nat) :=
  match find_available_driver st p d w ex with
  | some (did, vid) =>
    (applyAssignment st oid (some (did, vid)),
      if did ≠ 0 ∧ vid ≠ 0 then some (did, vid) else none)
  | none => (applyAssignment st oid none, none)

/-- Errors of the create path (app.py lines 296-363); the request aborts
with the store unchanged.  A JSON field that is absent (or otherwise falsy)
and an unparseable timestamp are both `none` inputs here; the former hits
the required-fields guard, the latter the validator. -/
inductive CreateError where
  | missingFields
  | validation (v : ValidationOutcome)
  | merchantNotFound
deriving DecidableEq, Repr

/-- Embedding of the create route (app.py lines 296-363): required-fields
guard, time validation, merchant lookup, insert of a pending order with null
driver and vehicle, then the immediate assignment attempt through
`assign_driver_to_order` with no excluded driver. -/
def create_order (st : Store) (newId mid : Nat) (desc : String)
    (p d : Option DT) (w : Int) : Store × Option CreateError :=
  match p, d with
  | some pt, some dt =>
    if mid = 0 ∨ w = 0 then (st, some CreateError.missingFields)
    else if validate_order_times (some pt) (some dt) ≠ ValidationOutcome.ok then
      (st, some (CreateError.validation (validate_order_times (some pt) (some dt))))
    else if mid ∈ st.merchants then
      let st1 : Store :=
        { st with orders := st.orders ++
            [{ id := newId, merchant_id := mid, description := desc,
               status := Status.pending, pickup := pt, dropoff := dt,
               weight := w, driver_id := none, vehicle_id := none }] }
      ((assign_driver_to_order st1 newId (some pt) (some dt) w none).1, none)
    else (st, some CreateError.merchantNotFound)
  | _, _ => (st, some CreateError.missingFields)

/-- Shift existence test of the edit-path recheck (app.py lines 455-463):
the old driver has a shift on the new date covering the new window. -/
def hasCoveringShift (st : Store) (dr : Nat) (odate : Int) (ptod dtod : Nat) : Bool :=
  st.shifts.any fun s =>
    decide (s.driver_id = dr ∧ s.shift_date = odate
      ∧ s.start_time ≤ ptod ∧ dtod ≤ s.end_time)

/-- The recheck of the currently assigned driver (app.py lines 440-486):
fetch the first vehicle of the old driver, require a covering shift on the
new date, weight within `max_weight`, and the recomputed overlap count
excluding this order below `max_orders`; on success keep the old driver with
that vehicle. -/
def recheckOldDriver (st : Store) (oid od : Nat) (pt dt : DT) (w : Int) :
    Option (Nat × Nat) :=
  match st.vehicles.find? (fun v => v.driver_id == od) with
  | some v =>
    if hasCoveringShift st od pt.date pt.tod dt.tod then
      if w ≤ v.max_weight then
        if (overlapCountExcl st v.id pt.date pt dt oid : Int) < v.max_orders then
          some (od, v.id)
        else none
      else none
    else none
  | none => none

/-- The reassignment decision of the edit path (app.py lines 434-491): when
the old driver id is truthy, recheck it; when the recheck produced no truthy
driver, fall back to `find_available_driver` with the old driver excluded. -/
def chooseAssignment (st : Store) (oid : Nat) (oldDriver : Option Nat)
    (pt dt : DT) (w : Int) : Option (Nat × Nat) :=
  let kept : Option (Nat × Nat) :=
    match oldDriver with
    | some od => if od ≠ 0 then recheckOldDriver st oid od pt dt w else none
    | none => none
  match kept with
  | some r => some r
  | none => find_available_driver st (some pt) (some dt) w oldDriver

/-- An edit request body: each field is `none` when absent from the JSON
payload; a present timestamp is additionally `none` inside when it does not
parse as an ISO datetime. -/
structure EditRequest where
  description : Option String
  pickup : Option (Option DT)
  dropoff : Option (Option DT)
  weight : Option Int
deriving DecidableEq, Repr

/-- Errors of the edit path (app.py lines 366-418); the request aborts with
the store unchanged.  `validation ValidationOutcome.typeError` models the
uncaught exception escaping the validator before any write. -/
inductive EditError where
  | missingMerchant
  | notFound
  | forbidden
  | immutable
  | validation (v : ValidationOutcome)
deriving DecidableEq, Repr

/-- Embedding of the edit route `update_order` (app.py lines 366-538):
merchant guard, order lookup, ownership check, terminal-status check,
validation of changed times, write of the non-assignment fields, then the
reassignment decision and coordinator write when time or weight changed.
The reassignment queries run against the store already holding the new
non-assignment fields, as the uncommitted SQLite connection does. -/
def update_order (st : Store) (oid mid : Nat) (req : EditRequest) :
    Store × Option EditError :=
  if mid = 0 then (st, some EditError.missingMerchant)
  else
    match st.orders.find? (fun o => o.id == oid) with
    | none => (st, some EditError.notFound)
    | some ord =>
      if ord.merchant_id ≠ mid then (st, some EditError.forbidden)
      else if ord.status = Status.completed ∨ ord.status = Status.cancelled then
        (st, some EditError.immutable)
      else
        let description := req.description.getD ord.description
        let pickup := req.pickup.getD (some ord.pickup)
        let dropoff := req.dropoff.getD (some ord.dropoff)
        let weight := req.weight.getD ord.weight
        let timeChanged : Prop :=
          pickup ≠ some ord.pickup ∨ dropoff ≠ some ord.dropoff
        let vres := if timeChanged then validate_order_times pickup dropoff
          else ValidationOutcome.ok
        if vres ≠ ValidationOutcome.ok then (st, some (EditError.validation vres))
        else
          match pickup, dropoff with
          | some pt, some dt =>
            let st1 := setOrder st oid fun o =>
              { o with description := description, pickup := pt,
                       dropoff := dt, weight := weight }
            if timeChanged ∨ weight ≠ ord.weight then
              (applyAssignment st1 oid
                (chooseAssignment st1 oid ord.driver_id pt dt weight), none)
            else (st1, none)
          | _, _ => (st, some (EditError.validation ValidationOutcome.invalidFormat))

/-- Error of the cancel path (app.py lines 541-562). -/
inductive DeleteError where
  | notFound
deriving DecidableEq, Repr

/-- Embedding of the cancel route `delete_order` (app.py lines 541-562):
after the existence check, unconditionally set status cancelled and clear
driver and vehicle, with no status or feasibility precondition. -/
def delete_order (st : Store) (oid : Nat) : Store × Option DeleteError :=
  if st.orders.any (fun o => o.id == oid) then
    (setOrder st oid fun o =>
      { o with status := Status.cancelled, driver_id := none, vehicle_id := none },
      none)
  else (st, some DeleteError.notFound)

/-- Per-order assignment consistency: assigned orders carry both ids,
pending and cancelled orders carry neither. -/
def orderConsistent (o : Order) : Prop :=
  (o.status = Status.assigned → o.driver_id ≠ none ∧ o.vehicle_id ≠ none)
  ∧ (o.status = Status.pending ∨ o.status = Status.cancelled →
      o.driver_id = none ∧ o.vehicle_id = none)

instance (o : Order) : Decidable (orderConsistent o) := by
  unfold orderConsistent
  exact inferInstance

/-- Store-wide assignment consistency. -/
def assignmentConsistent (st : Store) : Prop :=
  ∀ o ∈ st.orders, orderConsistent o

instance (st : Store) : Decidable (assignmentConsistent st) := by
  unfold assignmentConsistent
  exact inferInstance

/-- Fixtures used by witness theorems: a store with one driver on a
09:00-17:00 shift of day 0, a vehicle of capacity 1 order and weight 100,
and one assigned order from 10:00 to 12:00. -/
def wVehicle : Vehicle :=
  { id := 1, driver_id := 1, max_orders := 1, max_weight := 100 }

/-- Witness shift fixture. -/
def wShift : Shift :=
  { driver_id := 1, shift_date := 0, start_time := 32400, end_time := 61200 }

/-- Witness pickup timestamp fixture (10:00 naive). -/
def wPickup : DT := { date := 0, tod := 36000, offset := none }

/-- Witness dropoff timestamp fixture (12:00 naive). -/
def wDropoff : DT := { date := 0, tod := 43200, offset := none }

/-- Witness order fixture. -/
def wOrder : Order :=
  { id := 1, merchant_id := 1, description := "", status := Status.assigned,
    pickup := wPickup, dropoff := wDropoff, weight := 50,
    driver_id := some 1, vehicle_id := some 1 }

/-- Witness store fixture. -/
def wStore : Store :=
  { merchants := [1], drivers := [1], vehicles := [wVehicle],
    shifts := [wShift], orders := [wOrder] }

/-- Strict wall-clock order is irreflexive. -/
theorem DT.lt_irrefl (a : DT) : ¬ DT.lt a a := by
  simp [DT.lt]

/-- C4, counterexample: a pair that parses (one aware with UTC offset, one
naive), lies on one calendar day, and spans 30 minutes, so the claim
requires the validator to succeed; the code instead hits the uncaught
datetime-subtraction `TypeError` (modelled as `typeError`), which is none
of the structured outcomes. -/
theorem validator_mixed_awareness_counterexample :
    validate_order_times (some { date := 0, tod := 36000, offset := some 0 })
        (some { date := 0, tod := 37800, offset := none })
      = ValidationOutcome.typeError
    ∧ validate_order_times (some { date := 0, tod := 36000, offset := some 0 })
        (some { date := 0, tod := 37800, offset := none })
      ≠ ValidationOutcome.ok
    ∧ (0 : Int) = (0 : Int)
    ∧ diffSeconds { date := 0, tod := 36000, offset := some 0 }
        { date := 0, tod := 37800, offset := none } = 1800 := by
  decide

/-- C4 (amended): full characterization of the Time-Window Validator.  The
invalid-format error is returned iff a value fails to parse; otherwise the
cross-day error iff the calendar days differ; otherwise, when exactly one
timestamp carries a UTC offset the duration subtraction raises an uncaught
TypeError; otherwise too-short iff the window is under 15 minutes,
too-long iff over 4 hours, and success exactly when the window is within
[15 min, 4 h].  The embedding is a pure function, so the validator mutates
no state and is deterministic. -/
theorem validator_outcome_characterization (p d : Option DT) :
    (validate_order_times p d = ValidationOutcome.invalidFormat ↔ p = none ∨ d = none)
    ∧ ∀ pt dt, p = some pt → d = some dt →
        ((validate_order_times p d = ValidationOutcome.crossDayWindow ↔ pt.date ≠ dt.date)
        ∧ (validate_order_times p d = ValidationOutcome.typeError ↔
            pt.date = dt.date ∧ pt.offset.isSome ≠ dt.offset.isSome)
        ∧ (validate_order_times p d = ValidationOutcome.windowTooShort ↔
            pt.date = dt.date ∧ pt.offset.isSome = dt.offset.isSome
              ∧ diffSeconds pt dt < 900)
        ∧ (validate_order_times p d = ValidationOutcome.windowTooLong ↔
            pt.date = dt.date ∧ pt.offset.isSome = dt.offset.isSome
              ∧ 900 ≤ diffSeconds pt dt ∧ 14400 < diffSeconds pt dt)
        ∧ (validate_order_times p d = ValidationOutcome.ok ↔
            pt.date = dt.date ∧ pt.offset.isSome = dt.offset.isSome
              ∧ 900 ≤ diffSeconds pt dt ∧ diffSeconds pt dt ≤ 14400)) := by
  constructor
  · cases p <;> cases d <;> simp only [validate_order_times] <;>
      first
        | (split_ifs <;> simp)
        | simp
  · intro pt dt hp hd
    subst hp
    subst hd
    simp only [validate_order_times]
    split_ifs with h1 h2 h3 h4 <;>
      refine ⟨?_, ?_, ?_, ?_, ?_⟩ <;> (first | omega | simp_all)

/-- C4 witness: the characterization applied to the 10:00-12:00 naive
window, discharging the parse hypotheses. -/
theorem validator_outcome_characterization_witness :
    ((validate_order_times (some wPickup) (some wDropoff)
        = ValidationOutcome.crossDayWindow ↔ wPickup.date ≠ wDropoff.date)
    ∧ (validate_order_times (some wPickup) (some wDropoff)
        = ValidationOutcome.typeError ↔
        wPickup.date = wDropoff.date ∧ wPickup.offset.isSome ≠ wDropoff.offset.isSome)
    ∧ (validate_order_times (some wPickup) (some wDropoff)
        = ValidationOutcome.windowTooShort ↔
        wPickup.date = wDropoff.date ∧ wPickup.offset.isSome = wDropoff.offset.isSome
          ∧ diffSeconds wPickup wDropoff < 900)
    ∧ (validate_order_times (some wPickup) (some wDropoff)
        = ValidationOutcome.windowTooLong ↔
        wPickup.date = wDropoff.date ∧ wPickup.offset.isSome = wDropoff.offset.isSome
          ∧ 900 ≤ diffSeconds wPickup wDropoff ∧ 14400 < diffSeconds wPickup wDropoff)
    ∧ (validate_order_times (some wPickup) (some wDropoff)
        = ValidationOutcome.ok ↔
        wPickup.date = wDropoff.date ∧ wPickup.offset.isSome = wDropoff.offset.isSome
          ∧ 900 ≤ diffSeconds wPickup wDropoff ∧ diffSeconds wPickup wDropoff ≤ 14400)) :=
  (validator_outcome_characterization (some wPickup) (some wDropoff)).2
    wPickup wDropoff rfl rfl

/-- Spec-side predicate of section 4.2.c: an order counted against a
candidate vehicle has that vehicle, status assigned or completed, pickup on
the candidate calendar date, and a window overlapping the candidate window
under the strict rule `existing.pickup < candidate.dropoff AND
existing.dropoff > candidate.pickup`. -/
def countedOrder (vid : Nat) (odate : Int) (p d : DT) (o : Order) : Prop :=
  o.vehicle_id = some vid
  ∧ (o.status = Status.assigned ∨ o.status = Status.completed)
  ∧ o.pickup.date = odate
  ∧ DT.lt o.pickup d ∧ DT.lt p o.dropoff

instance (vid : Nat) (odate : Int) (p d : DT) (o : Order) :
    Decidable (countedOrder vid odate p d o) := by
  unfold countedOrder
  exact inferInstance

/-- C6: the matcher overlap count equals the number of stored orders
satisfying the spec predicate, and an order whose window merely touches the
candidate window at an endpoint is never counted. -/
theorem overlap_count_characterization (st : Store) (vid : Nat) (odate : Int)
    (p d : DT) :
    overlapCount st vid odate p d
      = st.orders.countP (fun o => decide (countedOrder vid odate p d o))
    ∧ ∀ o : Order, o.pickup = d ∨ o.dropoff = p → ¬ countedOrder vid odate p d o := by
  constructor
  · simp [overlapCount, countedOrder, List.countP_eq_length_filter]
  · rintro o (ho | ho) hc
    · exact DT.lt_irrefl d (ho ▸ hc.2.2.2.1)
    · exact DT.lt_irrefl p (ho ▸ hc.2.2.2.2)

/-- C6 witness: an order touching the candidate window endpoint
(its pickup equals the candidate dropoff) is not counted. -/
theorem overlap_count_characterization_witness :
    ¬ countedOrder 1 0 wPickup wDropoff { wOrder with pickup := wDropoff } :=
  (overlap_count_characterization wStore 1 0 wPickup wDropoff).2
    { wOrder with pickup := wDropoff } (Or.inl rfl)

/-- C10: when either time value fails to parse, the matcher returns no
match instead of raising, and `assign_driver_to_order` then silently sets
the order to pending with null driver and vehicle, returning no pair. -/
theorem matcher_unparseable_no_match (st : Store) (p d : Option DT) (w : Int)
    (ex : Option Nat) (oid : Nat) (h : p = none ∨ d = none) :
    find_available_driver st p d w ex = none
    ∧ (assign_driver_to_order st oid p d w ex).1
        = setOrder st oid (fun o =>
            { o with driver_id := none, vehicle_id := none, status := Status.pending })
    ∧ (assign_driver_to_order st oid p d w ex).2 = none := by
  have hf : find_available_driver st p d w ex = none := by
    cases p <;> cases d <;> first | rfl | (rcases h with h | h <;> simp_all)
  refine ⟨hf, ?_, ?_⟩ <;>
    simp [assign_driver_to_order, hf, applyAssignment]

/-- C10 witness: the matcher and coordinator behaviour at a concrete
unparseable pickup value. -/
theorem matcher_unparseable_no_match_witness :
    find_available_driver wStore none (some wDropoff) 50 none = none
    ∧ (assign_driver_to_order wStore 1 none (some wDropoff) 50 none).1
        = setOrder wStore 1 (fun o =>
            { o with driver_id := none, vehicle_id := none, status := Status.pending })
    ∧ (assign_driver_to_order wStore 1 none (some wDropoff) 50 none).2 = none :=
  matcher_unparseable_no_match wStore none (some wDropoff) 50 none 1 (Or.inl rfl)

/-- Every exit of the edit route either leaves the store unchanged or
reports no error: errors never mutate state. -/
theorem update_order_cases (st : Store) (oid mid : Nat) (req : EditRequest) :
    (update_order st oid mid req).1 = st ∨ (update_order st oid mid req).2 = none := by
  simp only [update_order]
  repeat' split
  all_goals simp

/-- A store fixture holding a single completed order that still references
its driver and vehicle (completed orders keep them for overlap counting). -/
def cStoreCompleted : Store :=
  { merchants := [1], drivers := [1], vehicles := [wVehicle], shifts := [wShift],
    orders := [{ id := 1, merchant_id := 1, description := "",
                 status := Status.completed, pickup := wPickup,
                 dropoff := wDropoff, weight := 50,
                 driver_id := some 1, vehicle_id := some 1 }] }

/-- C3, counterexample: cancellation is not blocked on a completed order.
Cancelling the completed order succeeds and changes its status to cancelled
and its driver and vehicle to null, so completed is not terminal under the
cancellation operation. -/
theorem terminal_orders_counterexample :
    cStoreCompleted.orders.map Order.status = [Status.completed]
    ∧ (delete_order cStoreCompleted 1).2 = none
    ∧ (delete_order cStoreCompleted 1).1.orders.map Order.status = [Status.cancelled]
    ∧ (delete_order cStoreCompleted 1).1 ≠ cStoreCompleted := by
  decide

/-- C3 (amended): an edit never changes any field of a completed or
cancelled order (the edit route rejects it with the store unchanged), but
cancellation is unconditional: it rewrites the order to cancelled status
with null driver and vehicle regardless of its prior status, leaving the
other fields intact. -/
theorem terminal_orders_edit_frozen (st : Store) (oid mid : Nat)
    (req : EditRequest) (ord : Order)
    (hfind : st.orders.find? (fun o => o.id == oid) = some ord)
    (hterm : ord.status = Status.completed ∨ ord.status = Status.cancelled) :
    ((update_order st oid mid req).1 = st ∧ (update_order st oid mid req).2 ≠ none)
    ∧ (delete_order st oid).1.orders
        = st.orders.map (fun o => if o.id = oid then
            { o with status := Status.cancelled, driver_id := none,
                     vehicle_id := none }
          else o) := by
  constructor
  · by_cases hmid : mid = 0
    · simp [update_order, hmid]
    · unfold update_order
      rw [hfind]
      by_cases howner : ord.merchant_id ≠ mid
      · simp [hmid, howner]
      · rcases hterm with h | h <;> simp [hmid, howner, h]
  · have hmem : ord ∈ st.orders := List.mem_of_find?_eq_some hfind
    have hid : ord.id = oid := by
      have := List.find?_some hfind
      simpa using this
    have hany : st.orders.any (fun o => o.id == oid) = true :=
      List.any_eq_true.mpr ⟨ord, hmem, by simpa using hid⟩
    simp [delete_order, hany, setOrder]

/-- C3 witness: the amended statement applied to the completed-order store. -/
theorem terminal_orders_edit_frozen_witness :
    ((update_order cStoreCompleted 1 1
        { description := some "x", pickup := none, dropoff := none,
          weight := none }).1 = cStoreCompleted
      ∧ (update_order cStoreCompleted 1 1
          { description := some "x", pickup := none, dropoff := none,
            weight := none }).2 ≠ none)
    ∧ (delete_order cStoreCompleted 1).1.orders
        = cStoreCompleted.orders.map (fun o => if o.id = 1 then
            { o with status := Status.cancelled, driver_id := none,
                     vehicle_id := none }
          else o) :=
  terminal_orders_edit_frozen cStoreCompleted 1 1
    { description := some "x", pickup := none, dropoff := none, weight := none }
    { id := 1, merchant_id := 1, description := "", status := Status.completed,
      pickup := wPickup, dropoff := wDropoff, weight := 50,
      driver_id := some 1, vehicle_id := some 1 }
    (by decide) (Or.inl rfl)

/-- C9: with a present merchant id, an edit of an existing order fails with
the forbidden error when the requester is not the creator, fails with the
immutable error when the creator edits a completed or cancelled order, and
every failing edit (including time-validation failures) leaves the store
unmutated. -/
theorem edit_authorization_and_no_mutation (st : Store) (oid mid : Nat)
    (req : EditRequest) (ord : Order)
    (hfind : st.orders.find? (fun o => o.id == oid) = some ord)
    (hmid : mid ≠ 0) :
    (ord.merchant_id ≠ mid →
        update_order st oid mid req = (st, some EditError.forbidden))
    ∧ (ord.merchant_id = mid →
        ord.status = Status.completed ∨ ord.status = Status.cancelled →
        update_order st oid mid req = (st, some EditError.immutable))
    ∧ ∀ e, (update_order st oid mid req).2 = some e →
        (update_order st oid mid req).1 = st := by
  refine ⟨?_, ?_, ?_⟩
  · intro hne
    unfold update_order
    rw [hfind]
    simp [hmid, hne]
  · intro heq hterm
    unfold update_order
    rw [hfind]
    rcases hterm with h | h <;> simp [hmid, heq, h]
  · intro e he
    refine (update_order_cases st oid mid req).resolve_right ?_
    simp [he]

/-- C9 witness: a foreign merchant (id 2) editing the witness order is
rejected with the forbidden error and the store is unchanged. -/
theorem edit_authorization_and_no_mutation_witness :
    update_order wStore 1 2
        { description := some "x", pickup := none, dropoff := none, weight := none }
      = (wStore, some EditError.forbidden) :=
  (edit_authorization_and_no_mutation wStore 1 2
      { description := some "x", pickup := none, dropoff := none, weight := none }
      wOrder (by decide) (by decide)).1 (by decide)

/-- Rewriting one order with a per-order-consistency preserving function
preserves store consistency. -/
theorem setOrder_consistent (st : Store) (oid : Nat) (f : Order → Order)
    (hf : ∀ o, orderConsistent o → orderConsistent (f o))
    (h : assignmentConsistent st) : assignmentConsistent (setOrder st oid f) := by
  intro o ho
  simp only [setOrder, List.mem_map] at ho
  obtain ⟨a, ha, rfl⟩ := ho
  by_cases hid : a.id = oid
  · rw [if_pos hid]
    exact hf a (h a ha)
  · rw [if_neg hid]
    exact h a ha

/-- The coordinator write always leaves every order consistent: it writes
either both ids with assigned status or neither id with pending status. -/
theorem applyAssignment_consistent (st : Store) (oid : Nat)
    (r : Option (Nat × Nat)) (h : assignmentConsistent st) :
    assignmentConsistent (applyAssignment st oid r) := by
  have hpend : ∀ o : Order, orderConsistent
      { o with driver_id := none, vehicle_id := none, status := Status.pending } := by
    intro o
    simp [orderConsistent]
  match r with
  | none => exact setOrder_consistent st oid _ (fun o _ => hpend o) h
  | some (did, vid) =>
    simp only [applyAssignment]
    split
    · refine setOrder_consistent st oid _ (fun o _ => ?_) h
      simp [orderConsistent]
    · exact setOrder_consistent st oid _ (fun o _ => hpend o) h

/-- C1: every engine operation preserves the assignment-state invariant:
assigned orders reference both a driver and a vehicle, pending and
cancelled orders reference neither.  Creation (with its immediate
assignment attempt), edit (with reassignment), and cancellation all map a
consistent store to a consistent store, on success and on failure alike. -/
theorem assignment_state_invariant_preserved (st : Store)
    (h : assignmentConsistent st) :
    (∀ newId mid desc p d w,
        assignmentConsistent (create_order st newId mid desc p d w).1)
    ∧ (∀ oid mid req, assignmentConsistent (update_order st oid mid req).1)
    ∧ (∀ oid, assignmentConsistent (delete_order st oid).1) := by
  have hassign : ∀ (st2 : Store) (oid : Nat) (p d : Option DT) (w : Int)
      (ex : Option Nat), assignmentConsistent st2 →
      assignmentConsistent (assign_driver_to_order st2 oid p d w ex).1 := by
    intro st2 oid p d w ex h2
    unfold assign_driver_to_order
    split
    · exact applyAssignment_consistent st2 oid _ h2
    · exact applyAssignment_consistent st2 oid _ h2
  refine ⟨?_, ?_, ?_⟩
  · intro newId mid desc p d w
    cases p <;> cases d <;> simp only [create_order]
    case some.some pt dt =>
      split
      · exact h
      · split
        · exact h
        · split
          · refine hassign _ _ _ _ _ _ ?_
            intro o ho
            simp only [List.mem_append, List.mem_singleton] at ho
            rcases ho with ho | rfl
            · exact h o ho
            · simp [orderConsistent]
          · exact h
    all_goals exact h
  · intro oid mid req
    simp only [update_order]
    repeat' split
    all_goals
      first
        | exact h
        | exact applyAssignment_consistent _ _ _ <| setOrder_consistent _ _ _
            (fun o ho => by
              simp only [orderConsistent] at ho ⊢
              exact ho) h
        | exact setOrder_consistent _ _ _
            (fun o ho => by
              simp only [orderConsistent] at ho ⊢
              exact ho) h
  · intro oid
    simp only [delete_order]
    split
    · refine setOrder_consistent _ _ _ (fun o _ => ?_) h
      simp [orderConsistent]
    · exact h

/-- C1 witness: the invariant holds after a weight edit that forces the
witness order back to pending. -/
theorem assignment_state_invariant_preserved_witness :
    assignmentConsistent (update_order wStore 1 1
      { description := none, pickup := none, dropoff := none,
        weight := some 150 }).1 :=
  (assignment_state_invariant_preserved wStore (by decide)).2.1 1 1
    { description := none, pickup := none, dropoff := none, weight := some 150 }

/-- The first-fit loop with an excluded driver id that is never zero
returns exactly the first candidate row that is not the excluded driver,
has enough weight capacity, and has overlap headroom. -/
theorem findFromCandidates_eq_find (st : Store) (odate : Int) (p d : DT)
    (w : Int) (ex : Option Nat) (hex : ∀ e, ex = some e → e ≠ 0)
    (l : List (Nat × Vehicle)) :
    findFromCandidates st odate p d w ex l
      = (l.find? fun row => decide (¬ ex = some row.1 ∧ w ≤ row.2.max_weight
          ∧ (overlapCount st row.2.id odate p d : Int) < row.2.max_orders)).map
        (fun row => (row.1, row.2.id)) := by
  induction l with
  | nil => rfl
  | cons row rest ih =>
    by_cases h1 : excludeMatches ex row.1 = true
    · have hx : ex = some row.1 := by
        cases ex with
        | none => simp [excludeMatches] at h1
        | some e =>
          simp only [excludeMatches, Bool.and_eq_true, decide_eq_true_eq,
            beq_iff_eq] at h1
          rw [h1.2]
      rw [findFromCandidates, if_pos h1, ih, List.find?_cons_of_neg]
      simp [hx]
    · by_cases h2 : row.2.max_weight < w
      · rw [findFromCandidates, if_neg h1, if_pos h2, ih, List.find?_cons_of_neg]
        simp only [decide_eq_true_eq, not_and, not_lt]
        intro _ hw
        omega
      · by_cases h3 : (row.2.max_orders : Int) ≤ (overlapCount st row.2.id odate p d : Int)
        · rw [findFromCandidates, if_neg h1, if_neg h2, if_pos h3, ih,
            List.find?_cons_of_neg]
          simp only [decide_eq_true_eq, not_and, not_lt]
          intro _ _
          omega
        · have hnx : ¬ ex = some row.1 := by
            intro hx
            apply h1
            subst hx
            simp [excludeMatches, hex row.1 rfl]
          rw [findFromCandidates, if_neg h1, if_neg h2, if_neg h3,
            List.find?_cons_of_pos]
          · rfl
          · simp only [decide_eq_true_eq]
            exact ⟨hnx, by omega, by omega⟩

/-- C5: with parseable times and a nonzero (or absent) excluded driver id,
the Feasibility Matcher returns the first row of the stable candidate
enumeration (covering shifts of the pickup date joined with the shift
driver's vehicles) that is not the excluded driver, whose vehicle weight
capacity is at least the order weight, and whose overlap count is strictly
below the vehicle order capacity; when no row passes, it returns no match. -/
theorem matcher_first_fit (st : Store) (pt dt : DT) (w : Int) (ex : Option Nat)
    (hex : ∀ e, ex = some e → e ≠ 0) :
    find_available_driver st (some pt) (some dt) w ex
      = ((candidateRows st pt.date pt.tod dt.tod).find? fun row =>
          decide (¬ ex = some row.1 ∧ w ≤ row.2.max_weight
            ∧ (overlapCount st row.2.id pt.date pt dt : Int) < row.2.max_orders)).map
        (fun row => (row.1, row.2.id)) :=
  findFromCandidates_eq_find st pt.date pt dt w ex hex
    (candidateRows st pt.date pt.tod dt.tod)

/-- C5 witness: the first-fit characterization at the witness store, where
the matcher rejects driver 1 (its vehicle is at capacity against the
assigned 10:00-12:00 order) for an overlapping 11:00-13:00 request. -/
theorem matcher_first_fit_witness :
    find_available_driver wStore (some { date := 0, tod := 39600, offset := none })
        (some { date := 0, tod := 46800, offset := none }) 50 none
      = ((candidateRows wStore 0 39600 46800).find? fun row =>
          decide (¬ (none : Option Nat) = some row.1 ∧ 50 ≤ row.2.max_weight
            ∧ (overlapCount wStore row.2.id 0 { date := 0, tod := 39600, offset := none }
                { date := 0, tod := 46800, offset := none } : Int) < row.2.max_orders)).map
        (fun row => (row.1, row.2.id)) :=
  matcher_first_fit wStore { date := 0, tod := 39600, offset := none }
    { date := 0, tod := 46800, offset := none } 50 none (fun e he => by cases he)

/-- C7: on a reassigning edit, the previously assigned (nonzero) driver
with first vehicle `v` is kept exactly when it has a covering shift on the
new date, enough weight capacity, and a recomputed overlap count excluding
the edited order below capacity; otherwise (and when there was no previous
driver) the decision falls back to the Feasibility Matcher excluding the
old driver, and that fallback can never return the old driver itself. -/
theorem edit_keeps_old_driver_iff (st : Store) (oid od : Nat) (pt dt : DT)
    (w : Int) (v : Vehicle) (hod : od ≠ 0)
    (hv : st.vehicles.find? (fun x => x.driver_id == od) = some v) :
    (chooseAssignment st oid (some od) pt dt w
      = if hasCoveringShift st od pt.date pt.tod dt.tod = true
            ∧ w ≤ v.max_weight
            ∧ (overlapCountExcl st v.id pt.date pt dt oid : Int) < v.max_orders
        then some (od, v.id)
        else find_available_driver st (some pt) (some dt) w (some od))
    ∧ (∀ r, find_available_driver st (some pt) (some dt) w (some od) = some r →
        r.1 ≠ od)
    ∧ chooseAssignment st oid none pt dt w
        = find_available_driver st (some pt) (some dt) w none := by
  refine ⟨?_, ?_, rfl⟩
  · simp only [chooseAssignment, recheckOldDriver, hv, hod, ne_eq,
      not_false_eq_true, if_true]
    split_ifs <;> simp_all
  · intro r hr
    have hex : ∀ e, (some od : Option Nat) = some e → e ≠ 0 := by
      intro e he
      injection he with h
      rw [← h]
      exact hod
    simp only [find_available_driver] at hr
    rw [findFromCandidates_eq_find st pt.date pt dt w (some od) hex] at hr
    rw [Option.map_eq_some'] at hr
    obtain ⟨row, hrow, hre⟩ := hr
    have hp := List.find?_some hrow
    simp only [decide_eq_true_eq] at hp
    rw [← hre]
    intro hcontra
    exact hp.1 (by rw [hcontra])

/-- C7 witness: the keep-or-fallback characterization at the witness store
for an edit of a second order to the 13:00-15:00 window. -/
theorem edit_keeps_old_driver_iff_witness :
    chooseAssignment wStore 2 (some 1) { date := 0, tod := 46800, offset := none }
        { date := 0, tod := 54000, offset := none } 50
      = if hasCoveringShift wStore 1 0 46800 54000 = true
            ∧ 50 ≤ wVehicle.max_weight
            ∧ (overlapCountExcl wStore wVehicle.id 0
                { date := 0, tod := 46800, offset := none }
                { date := 0, tod := 54000, offset := none } 2 : Int) < wVehicle.max_orders
        then some (1, wVehicle.id)
        else find_available_driver wStore (some { date := 0, tod := 46800, offset := none })
          (some { date := 0, tod := 54000, offset := none }) 50 (some 1) :=
  (edit_keeps_old_driver_iff wStore 2 1 { date := 0, tod := 46800, offset := none }
    { date := 0, tod := 54000, offset := none } 50 wVehicle (by decide) (by decide)).1

/-- C2: both overlap counts of the edit path exclude the edited order.
The recheck count (which carries the explicit id filter) equals the plain
matcher count over the store with the edited order removed; and for every
vehicle the fallback matcher can examine (its owner is not the excluded old
driver), the matcher count already equals the count excluding the edited
order, because every copy of the edited order sits on a vehicle of the
excluded driver (or on no vehicle at all). -/
theorem edit_overlap_counts_exclude_self (st : Store) (oid : Nat)
    (excl : Option Nat) (odate : Int) (p d : DT)
    (hveh : ∀ o ∈ st.orders, o.id = oid → ∀ v ∈ st.vehicles,
        o.vehicle_id = some v.id → excl = some v.driver_id) :
    (∀ vid, overlapCountExcl st vid odate p d oid
        = overlapCount
            { st with orders := st.orders.filter (fun o => decide (o.id ≠ oid)) }
            vid odate p d)
    ∧ ∀ v ∈ st.vehicles, ¬ excl = some v.driver_id →
        overlapCount st v.id odate p d = overlapCountExcl st v.id odate p d oid := by
  constructor
  · intro vid
    simp only [overlapCountExcl, overlapCount, List.filter_filter]
    congr 1
    refine List.filter_congr ?_
    intro o _
    rw [← Bool.decide_and]
    rw [decide_eq_decide]
    tauto
  · intro v hvmem hne
    simp only [overlapCount, overlapCountExcl]
    congr 1
    refine List.filter_congr ?_
    intro o ho
    rw [decide_eq_decide]
    constructor
    · rintro ⟨h1, h2, h3, h4, h5⟩
      refine ⟨h1, h2, h3, ?_, h4, h5⟩
      intro hid
      exact hne (hveh o ho hid v hvmem h1)
    · rintro ⟨h1, h2, h3, _, h4, h5⟩
      exact ⟨h1, h2, h3, h4, h5⟩

/-- C2 witness: the count exclusions at the witness store while editing the
assigned order (id 1, on driver 1's vehicle) with driver 1 excluded. -/
theorem edit_overlap_counts_exclude_self_witness :
    (∀ vid, overlapCountExcl wStore vid 0 wPickup wDropoff 1
        = overlapCount
            { wStore with orders := wStore.orders.filter (fun o => decide (o.id ≠ 1)) }
            vid 0 wPickup wDropoff)
    ∧ ∀ v ∈ wStore.vehicles, ¬ (some 1 : Option Nat) = some v.driver_id →
        overlapCount wStore v.id 0 wPickup wDropoff
          = overlapCountExcl wStore v.id 0 wPickup wDropoff 1 :=
  edit_overlap_counts_exclude_self wStore 1 (some 1) 0 wPickup wDropoff (by decide)

/-- C8: a successful edit in which the effective pickup, dropoff and weight
all equal the stored snapshot rewrites only the non-assignment fields: each
matching row keeps its status, driver and vehicle, and receives the
requested description together with the unchanged times and weight. -/
theorem edit_without_changes_keeps_assignment (st : Store) (oid mid : Nat)
    (req : EditRequest) (ord : Order)
    (hfind : st.orders.find? (fun o => o.id == oid) = some ord)
    (hp : req.pickup.getD (some ord.pickup) = some ord.pickup)
    (hd : req.dropoff.getD (some ord.dropoff) = some ord.dropoff)
    (hw : req.weight.getD ord.weight = ord.weight)
    (hok : (update_order st oid mid req).2 = none) :
    (update_order st oid mid req).1.orders
      = st.orders.map (fun o =>
          if o.id = oid then
            { o with description := req.description.getD ord.description,
                     pickup := ord.pickup, dropoff := ord.dropoff,
                     weight := ord.weight }
          else o) := by
  by_cases hmid : mid = 0
  · simp [update_order, hmid] at hok
  · by_cases howner : ord.merchant_id ≠ mid
    · simp [update_order, hmid, hfind, howner] at hok
    · by_cases hterm : ord.status = Status.completed ∨ ord.status = Status.cancelled
      · simp [update_order, hmid, hfind, howner, hterm] at hok
      · simp [update_order, hmid, hfind, howner, hterm, hp, hd, hw, setOrder]

/-- C8 witness: a description-only edit of the witness order leaves driver,
vehicle and status untouched. -/
theorem edit_without_changes_keeps_assignment_witness :
    (update_order wStore 1 1
        { description := some "note", pickup := none, dropoff := none,
          weight := none }).1.orders
      = wStore.orders.map (fun o =>
          if o.id = 1 then
            { o with description := (some "note").getD wOrder.description,
                     pickup := wOrder.pickup, dropoff := wOrder.dropoff,
                     weight := wOrder.weight }
          else o) :=
  edit_without_changes_keeps_assignment wStore 1 1
    { description := some "note", pickup := none, dropoff := none, weight := none }
    wOrder (by decide) rfl rfl rfl (by decide)

end Dispatch
